import Mathlib

/-!
Shallow embedding of the Advanced SQL Agent pipeline of this repository
(src/v1/src/agents/advancedSqlAgent.js and src/v1/src/routes/sql-agent.routes.js)
in Lean 4, together with theorems settling the frozen claims about it.

Conventions of the embedding:
- JavaScript strings are modelled as Lean `String` / `List Char`; the keywords
  and SQL fragments involved are ASCII, so `Char.toUpper`/`Char.toLower` model
  `toUpperCase`/`toLowerCase` and code-point operations model UTF-16 operations.
- Functions that throw are modelled with `Except`; fields that may be absent
  from a returned JavaScript object are modelled with `Option`.
- The external database is modelled as a script `Nat → Except DbError (List Row)`
  giving the outcome of the n-th `connectionPool.execute` call; the external
  text-generation model is modelled as an outcome parameter.
- `Date.now()` is modelled by a single `now : Nat` parameter per call
  (the call is treated as instantaneous, so computed execution times are 0).
-/

/-- Whether `pat` is a prefix of `l` (character lists). -/
def charsStartWith : List Char → List Char → Bool
  | [], _ => true
  | _ :: _, [] => false
  | a :: ps, b :: ls => a == b && charsStartWith ps ls

/-- Whether `pat` occurs as a contiguous sublist of `l`; models
JavaScript `String.prototype.includes`. -/
def charsContain (pat : List Char) : List Char → Bool
  | [] => pat.isEmpty
  | b :: ls => charsStartWith pat (b :: ls) || charsContain pat ls

/-- Models `s.includes(pat)` on JavaScript strings. -/
def containsSub (s pat : String) : Bool := charsContain pat.data s.data

/-- Models `s.toUpperCase()` (ASCII case mapping). -/
def jsToUpper (s : String) : String := String.mk (s.data.map Char.toUpper)

/-- Models `s.toLowerCase()` (ASCII case mapping). -/
def jsToLower (s : String) : String := String.mk (s.data.map Char.toLower)

/-- ASCII whitespace, modelling the characters `\s` matches in practice here. -/
def isWs (c : Char) : Bool :=
  c == ' ' || c == '\t' || c == '\n' || c == '\r' || c == '\x0b' || c == '\x0c'

/-- Trim ASCII whitespace from both ends of a character list. -/
def jsTrimChars (cs : List Char) : List Char :=
  ((cs.dropWhile isWs).reverse.dropWhile isWs).reverse

/-- Models `s.trim()`. -/
def jsTrim (s : String) : String := String.mk (jsTrimChars s.data)

/-- The blocklist scanned by `validateAndOptimizeQuery` (advancedSqlAgent.js:584). -/
def dangerousKeywords : List String :=
  ["DROP", "DELETE", "TRUNCATE", "ALTER", "CREATE", "INSERT", "UPDATE"]

/-- Embedding of `validateAndOptimizeQuery` (advancedSqlAgent.js:582-603).
Throws (models `throw new Error`) when the uppercased query contains a
blocklisted keyword; appends a default `LIMIT 100` to a non-aggregate
`SELECT` without a `LIMIT`. -/
def validateAndOptimizeQuery (query : String) : Except String String :=
  let queryUpper := jsToUpper query
  match dangerousKeywords.find? (fun kw => containsSub queryUpper kw) with
  | some kw => Except.error ("Query contains prohibited keyword: " ++ kw)
  | none =>
    if !containsSub queryUpper "LIMIT" && containsSub queryUpper "SELECT" then
      if !containsSub queryUpper "COUNT(" && !containsSub queryUpper "SUM(" &&
          !containsSub queryUpper "AVG(" && !containsSub queryUpper "GROUP BY" then
        Except.ok (query ++ " LIMIT 100")
      else
        Except.ok query
    else
      Except.ok query

/-- A database row, modelled as column-name/value pairs. -/
abbrev Row := List (String × String)

/-- An error thrown by the mysql2 driver: a `code` and a `message`. -/
structure DbError where
  code : String
  message : String
  deriving DecidableEq, Repr

/-- The transient error codes recognised by `executeQuery` (advancedSqlAgent.js:82-83). -/
def connectionErrorCodes : List String :=
  ["ECONNRESET", "PROTOCOL_CONNECTION_LOST", "ETIMEDOUT", "EPIPE"]

/-- Whether a driver error is one of the transient connection errors. -/
def isConnectionError (e : DbError) : Bool := connectionErrorCodes.contains e.code

/-- The backoff delay in milliseconds taken at retry count `r`
(`Math.pow(2, retryCount) * 1000`, advancedSqlAgent.js:89). -/
def backoffDelayMs (r : Nat) : Nat := 2 ^ r * 1000

/-- Loop body of `executeQuery` (advancedSqlAgent.js:70-108). `script n` is the
outcome of the n-th `connectionPool.execute` call; `r` is the current retry
count and `remaining = (maxRetries - 1) - r` the number of retries still
allowed, so `remaining = 0` is exactly the JavaScript condition
`retryCount < maxRetries - 1` failing. The `while (retryCount < maxRetries)`
guard is redundant in the source (the count starts at 0 and is incremented
only while below `maxRetries - 1`), so it has no counterpart here. The second
component collects the backoff delays (ms) in order; the pool recreation at
`retryCount === 2` only affects the pool object, which is not modelled. -/
def executeQueryGo (script : Nat → Except DbError (List Row)) :
    Nat → Nat → Except DbError (List Row) × List Nat
  | r, remaining =>
    match script r with
    | Except.ok rows => (Except.ok rows, [])
    | Except.error e =>
      if isConnectionError e then
        match remaining with
        | 0 => (Except.error e, [])
        | rem + 1 =>
          let rest := executeQueryGo script (r + 1) rem
          (rest.1, backoffDelayMs (r + 1) :: rest.2)
      else
        (Except.error e, [])

/-- Embedding of `executeQuery` (advancedSqlAgent.js:70-108) with
`maxRetries = 3`: the result, and the list of backoff delays taken. -/
def executeQuery (script : Nat → Except DbError (List Row)) :
    Except DbError (List Row) × List Nat :=
  executeQueryGo script 0 2

/-- UTF-8 encoding of a single character, modelling `Buffer.from(query)`. -/
def utf8EncodeChar (c : Char) : List UInt8 :=
  let n := c.toNat
  if n < 0x80 then [UInt8.ofNat n]
  else if n < 0x800 then
    [UInt8.ofNat (0xC0 + n / 0x40), UInt8.ofNat (0x80 + n % 0x40)]
  else if n < 0x10000 then
    [UInt8.ofNat (0xE0 + n / 0x1000), UInt8.ofNat (0x80 + (n / 0x40) % 0x40),
     UInt8.ofNat (0x80 + n % 0x40)]
  else
    [UInt8.ofNat (0xF0 + n / 0x40000), UInt8.ofNat (0x80 + (n / 0x1000) % 0x40),
     UInt8.ofNat (0x80 + (n / 0x40) % 0x40), UInt8.ofNat (0x80 + n % 0x40)]

/-- UTF-8 bytes of a string. -/
def utf8Bytes (s : String) : List UInt8 := s.data.flatMap utf8EncodeChar

/-- The standard base64 alphabet. -/
def base64Alphabet : String :=
  "ABCDEFGHIJKLMNOPQRSTUVWXYZabcdefghijklmnopqrstuvwxyz0123456789+/"

/-- The base64 digit for a 6-bit value. -/
def b64Char (n : Nat) : Char := base64Alphabet.data.getD n '='

/-- Standard base64 encoding with padding, modelling the base64 conversion of a byte buffer. -/
def base64Encode : List UInt8 → List Char
  | [] => []
  | [b1] =>
    [b64Char (b1.toNat / 4), b64Char (b1.toNat % 4 * 16), '=', '=']
  | [b1, b2] =>
    [b64Char (b1.toNat / 4), b64Char (b1.toNat % 4 * 16 + b2.toNat / 16),
     b64Char (b2.toNat % 16 * 4), '=']
  | b1 :: b2 :: b3 :: rest =>
    b64Char (b1.toNat / 4) :: b64Char (b1.toNat % 4 * 16 + b2.toNat / 16) ::
    b64Char (b2.toNat % 16 * 4 + b3.toNat / 64) :: b64Char (b3.toNat % 64) ::
    base64Encode rest

/-- Embedding of `generateCacheKey` (advancedSqlAgent.js:832-834):
the base64 encoding of the UTF-8 bytes of the query, truncated to its first 50 characters. -/
def generateCacheKey (query : String) : String :=
  String.mk ((base64Encode (utf8Bytes query)).take 50)

/-- One cache entry: result rows and insertion timestamp (ms). -/
structure CacheEntry where
  result : List Row
  timestamp : Nat
  deriving DecidableEq, Repr

/-- Performance counters of the agent (advancedSqlAgent.js:53-59). The running
average is a rational, modelling the JavaScript floating division closely
enough for the claims (none depends on rounding). -/
structure Metrics where
  totalQueries : Nat
  successfulQueries : Nat
  failedQueries : Nat
  averageExecutionTime : Rat
  cacheHits : Nat
  deriving DecidableEq, Repr

/-- One query-history record (advancedSqlAgent.js:846-855); the ISO timestamp
string is modelled by the millisecond clock value. -/
structure HistoryEntry where
  timestampMs : Nat
  query : String
  success : Bool
  executionTime : Nat
  rowCount : Nat
  error : Option String
  deriving DecidableEq, Repr

/-- The mutable agent state touched by `executeSqlQuery`: the query cache
(a JavaScript `Map` in insertion order), metrics and history. -/
structure AgentState where
  queryCache : List (String × CacheEntry)
  metrics : Metrics
  queryHistory : List HistoryEntry
  deriving DecidableEq, Repr

/-- `Map.prototype.has`. -/
def mapHas (m : List (String × CacheEntry)) (k : String) : Bool :=
  m.any (fun p => p.1 == k)

/-- `Map.prototype.get` (as an `Option`). -/
def mapFind? (m : List (String × CacheEntry)) (k : String) : Option CacheEntry :=
  (m.find? (fun p => p.1 == k)).map (fun p => p.2)

/-- `Map.prototype.set`: update in place if the key exists, else append
(JavaScript `Map` preserves insertion order). -/
def mapSet (m : List (String × CacheEntry)) (k : String) (v : CacheEntry) :
    List (String × CacheEntry) :=
  if mapHas m k then m.map (fun p => if p.1 == k then (k, v) else p)
  else m ++ [(k, v)]

/-- `Map.prototype.delete`. -/
def mapDelete (m : List (String × CacheEntry)) (k : String) :
    List (String × CacheEntry) :=
  m.filter (fun p => p.1 != k)

/-- `this.cacheTimeout` (advancedSqlAgent.js:46): 5 minutes in ms. -/
def cacheTimeout : Nat := 300000

/-- `this.maxHistorySize` (advancedSqlAgent.js:50). -/
def maxHistorySize : Nat := 1000

/-- Embedding of `updateAverageExecutionTime` (advancedSqlAgent.js:836-844). -/
def updateAverageExecutionTime (m : Metrics) (newTime : Nat) : Metrics :=
  if m.successfulQueries == 1 then
    { m with averageExecutionTime := (newTime : Rat) }
  else
    { m with averageExecutionTime :=
        (m.averageExecutionTime * ((m.successfulQueries : Rat) - 1) + (newTime : Rat))
          / (m.successfulQueries : Rat) }

/-- Embedding of `addToQueryHistory` (advancedSqlAgent.js:846-862). -/
def addToQueryHistory (st : AgentState) (now : Nat) (query : String) (success : Bool)
    (executionTime : Nat) (rowCount : Nat) (error : Option String) : AgentState :=
  let entry : HistoryEntry :=
    { timestampMs := now, query := String.mk (query.data.take 200),
      success := success, executionTime := executionTime,
      rowCount := rowCount, error := error }
  let h := st.queryHistory ++ [entry]
  let h2 := if h.length > maxHistorySize then h.tail else h
  { st with queryHistory := h2 }

/-- Error-message classification in the catch branch of `executeSqlQuery`
(advancedSqlAgent.js:672-679). -/
def classifyError (e : DbError) : String :=
  if e.code == "ER_NO_SUCH_TABLE" then
    "Table doesn\x27t exist. Please check the table name. Available tables include: company, projects, contacts, teammembers, etc."
  else if e.code == "ECONNRESET" || e.code == "ETIMEDOUT" then
    "Database connection timeout. The query may be too complex or the database is temporarily unavailable."
  else if e.code == "ER_BAD_FIELD_ERROR" then
    "Column doesn\x27t exist. Please check the column name in the table schema."
  else e.message

/-- The structured result object returned by `executeSqlQuery`; fields absent
from the corresponding JavaScript object literal are `none`. -/
structure SqlResult where
  success : Bool
  data : Option (List Row)
  error : Option String
  errorCode : Option String
  executionTime : Nat
  fromCache : Option Bool
  rowCount : Option Nat
  deriving DecidableEq, Repr

/-- The non-cache-hit path of `executeSqlQuery` (advancedSqlAgent.js:630-687):
run the query through `executeQuery`, cache a small non-empty result (evicting
the oldest entry when the cache exceeds 100 entries), update metrics and
history; on failure record a failed query and return a structured error. -/
def executeFresh (st : AgentState) (script : Nat → Except DbError (List Row))
    (query : String) (useCache : Bool) (now : Nat) (cacheKey : String) :
    SqlResult × AgentState :=
  match (executeQuery script).1 with
  | Except.ok rows =>
    let st1 :=
      if useCache && decide (rows.length > 0) && decide (rows.length < 1000) then
        let c1 := mapSet st.queryCache cacheKey { result := rows, timestamp := now }
        let c2 :=
          if c1.length > 100 then
            match c1.head? with
            | some oldest => mapDelete c1 oldest.1
            | none => c1
          else c1
        { st with queryCache := c2 }
      else st
    let m1 := { st1.metrics with successfulQueries := st1.metrics.successfulQueries + 1 }
    let st2 := { st1 with metrics := updateAverageExecutionTime m1 0 }
    let st3 := addToQueryHistory st2 now query true 0 rows.length none
    ({ success := true, data := some rows, error := none, errorCode := none,
       executionTime := 0, fromCache := some false, rowCount := some rows.length },
     st3)
  | Except.error e =>
    let st1 := { st with metrics :=
      { st.metrics with failedQueries := st.metrics.failedQueries + 1 } }
    let st2 := addToQueryHistory st1 now query false 0 0 (some e.message)
    ({ success := false, data := none, error := some (classifyError e),
       errorCode := some e.code, executionTime := 0, fromCache := none,
       rowCount := none },
     st2)

/-- Embedding of `executeSqlQuery` (advancedSqlAgent.js:608-688). On a cache
hit within the TTL the cached rows are returned with `fromCache := true` and a
cache-hit metric (and no `rowCount` field); an expired entry is deleted and the
query re-executed. -/
def executeSqlQuery (st : AgentState) (script : Nat → Except DbError (List Row))
    (query : String) (useCache : Bool) (now : Nat) : SqlResult × AgentState :=
  let st0 := { st with metrics :=
    { st.metrics with totalQueries := st.metrics.totalQueries + 1 } }
  let cacheKey := generateCacheKey query
  match (if useCache then mapFind? st0.queryCache cacheKey else none) with
  | some cached =>
    if now - cached.timestamp < cacheTimeout then
      ({ success := true, data := some cached.result, error := none,
         errorCode := none, executionTime := 0, fromCache := some true,
         rowCount := none },
       { st0 with metrics :=
         { st0.metrics with cacheHits := st0.metrics.cacheHits + 1 } })
    else
      executeFresh { st0 with queryCache := mapDelete st0.queryCache cacheKey }
        script query useCache now cacheKey
  | none => executeFresh st0 script query useCache now cacheKey

/-- Length of the match of the regex `/```sql\s*|\s*```/` at the head of `cs`
(first alternative preferred, as in JavaScript), or `none`. -/
def fenceMatchLen (cs : List Char) : Option Nat :=
  if cs.take 6 == "```sql".data then
    some (6 + ((cs.drop 6).takeWhile isWs).length)
  else
    let w := (cs.takeWhile isWs).length
    if (cs.drop w).take 3 == "```".data then some (w + 3) else none

/-- Global replacement of `/```sql\s*|\s*```/` by the empty string
(advancedSqlAgent.js:517). The fuel is the input length; every step consumes
at least one character, so the fuel never runs out. -/
def stripFencesGo : Nat → List Char → List Char
  | 0, cs => cs
  | fuel + 1, cs =>
    match cs with
    | [] => []
    | c :: rest =>
      match fenceMatchLen (c :: rest) with
      | some n => stripFencesGo fuel ((c :: rest).drop n)
      | none => c :: stripFencesGo fuel rest

/-- Single anchored replacement of `/^sql\s*/i` by the empty string
(advancedSqlAgent.js:518). -/
def stripLeadingSql (cs : List Char) : List Char :=
  if (cs.take 3).map Char.toLower == "sql".data then (cs.drop 3).dropWhile isWs else cs

/-- Global replacement of `/```/` by the empty string (advancedSqlAgent.js:519),
with the same fuel convention as `stripFencesGo`. -/
def removeTriplesGo : Nat → List Char → List Char
  | 0, cs => cs
  | fuel + 1, cs =>
    match cs with
    | [] => []
    | c :: rest =>
      if (c :: rest).take 3 == "```".data then removeTriplesGo fuel ((c :: rest).drop 3)
      else c :: removeTriplesGo fuel rest

/-- A JavaScript word character (`\w` and the `\b` boundary test). -/
def isWordChar (c : Char) : Bool := c.isAlphanum || c == '_'

/-- Global case-insensitive whole-word replacement, modelling
the whole-word case-insensitive global `RegExp` replacement of each incorrect table name
(advancedSqlAgent.js:530-533). `pat` is the lowercase pattern; `prevIsWord`
says whether the character before the current position (in the original text)
is a word character. After a match the scan resumes after the matched text,
whose last character is a word character for every pattern used here. -/
def replaceWordCIGo (pat rep : List Char) : Nat → Bool → List Char → List Char
  | 0, _, cs => cs
  | fuel + 1, prevIsWord, cs =>
    match cs with
    | [] => []
    | c :: rest =>
      if !prevIsWord && decide (0 < pat.length) &&
          ((c :: rest).take pat.length).map Char.toLower == pat &&
          !(((c :: rest).drop pat.length).headD ' ' |> isWordChar) then
        rep ++ replaceWordCIGo pat rep fuel true ((c :: rest).drop pat.length)
      else
        c :: replaceWordCIGo pat rep fuel (isWordChar c) rest

/-- The post-processing applied by `generateSqlQuery` to the model reply
(advancedSqlAgent.js:514-533): trim, strip Markdown code fences, strip a
leading `sql`, and rewrite known-incorrect table names word-wise. -/
def cleanGeneratedQuery (text : String) : String :=
  let q0 := jsTrimChars text.data
  let q1 := jsTrimChars (stripFencesGo q0.length q0)
  let q2 := jsTrimChars (stripLeadingSql q1)
  let q3 := jsTrimChars (removeTriplesGo q2.length q2)
  let q4 := replaceWordCIGo "companies".data "company".data q3.length false q3
  let q5 := replaceWordCIGo "users".data "contacts".data q4.length false q4
  let q6 := replaceWordCIGo "employees".data "contacts".data q5.length false q5
  let q7 := replaceWordCIGo "timesheets_data".data "timesheetdata".data q6.length false q6
  String.mk q7

/-- JavaScript `relevantTables[0]` with the fallback `company`: the first element unless the
list is empty or its first element is the empty string (falsy). -/
def firstTableOrCompany (ts : List String) : String :=
  match ts.head? with
  | some t => if t == "" then "company" else t
  | none => "company"

/-- Embedding of `generateFallbackQuery` (advancedSqlAgent.js:552-577). In the
source the `list`/`show` branch returns only for the tables `company` and
`project` and otherwise falls through to the final default. -/
def generateFallbackQuery (question : String) (relevantTables : List String) : String :=
  let questionLower := jsToLower question
  if containsSub questionLower "summary" &&
      relevantTables.contains "master_project_ai_summary" then
    "SELECT projectId, summary FROM master_project_ai_summary WHERE status = \"active\" LIMIT 10"
  else if containsSub questionLower "how many" || containsSub questionLower "count" then
    "SELECT COUNT(*) as count FROM " ++ firstTableOrCompany relevantTables
  else if (containsSub questionLower "list" || containsSub questionLower "show") &&
      firstTableOrCompany relevantTables == "company" then
    "SELECT companyId, companyName, status FROM company LIMIT 20"
  else if (containsSub questionLower "list" || containsSub questionLower "show") &&
      firstTableOrCompany relevantTables == "project" then
    "SELECT projectId, projectName, projectStatus FROM project LIMIT 20"
  else
    "SELECT * FROM " ++ firstTableOrCompany relevantTables ++ " LIMIT 5"

/-- Failure of the text-generation model call, carrying the HTTP status. -/
structure GenError where
  status : Nat
  deriving DecidableEq, Repr

/-- Embedding of `generateSqlQuery` (advancedSqlAgent.js:479-547).
`modelOutcome` is the outcome of the `this.model.generateContent` call. On
success the reply is post-processed by `cleanGeneratedQuery`. In the catch
branch, for HTTP status 429 the source evaluates
`this.generateFallbackQuery(question, relevantTables)`, but the identifier
`relevantTables` is not bound anywhere in the method (its parameter is named
`tableNames`), so evaluating the argument raises a `ReferenceError` that
propagates to the caller; for any other failure the method throws
a generic generation `Error`. -/
def generateSqlQuery (modelOutcome : Except GenError String) (question : String)
    (tableNames : List String) (schemaInfo : String) : Except String String :=
  match modelOutcome with
  | Except.ok text => Except.ok (cleanGeneratedQuery text)
  | Except.error e =>
    if e.status == 429 then
      Except.error "ReferenceError: relevantTables is not defined"
    else
      Except.error "Failed to generate SQL query"

/-- One entry of the category map: label, tables and keywords. -/
structure CategoryDef where
  name : String
  tables : List String
  keywords : List String
  deriving DecidableEq, Repr

/-- Embedding of `getCategoryMapping` (advancedSqlAgent.js:185-278), in the
insertion order of the source. -/
def categoryMapping : List CategoryDef := [
  { name := "Company / Organization",
    tables := ["company", "platformconfig", "user_company_relations",
      "system_country_currency", "system_role", "system_status",
      "system_type", "system_survey_template", "countries",
      "platformusers", "permissions", "loginhistory"],
    keywords := ["company", "organization", "config", "system", "country",
      "currency", "platform", "user"] },
  { name := "Users / Teams",
    tables := ["contacts", "contacts_backup_20250211", "contactsalary",
      "teammembers", "teammembers_bkup20241029", "teammembers_stage",
      "platformusers", "permissions", "loginhistory",
      "recentlyviewed", "roles", "rolefeatures"],
    keywords := ["user", "contact", "team", "member", "role", "permission",
      "login", "salary", "employee"] },
  { name := "Projects",
    tables := ["projects", "projectmilestones", "portfolio_projects_rel", "portfolios",
      "projectfinancialdaily", "s_projects", "temp_projectlist",
      "master_case_project", "master_case_project_backup_20250219"],
    keywords := ["project", "milestone", "portfolio", "financial", "budget", "case"] },
  { name := "Timesheets",
    tables := ["timesheetdata", "timesheets", "timesheetsraw", "timesheettasks",
      "timesheettaskscache", "timesheetuploadlog", "x_timesheet",
      "s_teammembers"],
    keywords := ["timesheet", "time", "hours", "task", "upload", "raw", "effort"] },
  { name := "Reports / Summaries",
    tables := ["consolidated_summary", "mod_consolidated_summary", "reconciliations",
      "master_sheets", "master_sheets_data", "activitylogs", "alerts",
      "notes", "naggingdetails", "master_project_ai_summary",
      "master_project_ai_summary_sections", "master_project_ai_summary_source",
      "master_project_summarizer_logs", "master_project_summarizer_logs_bkup20241008"],
    keywords := ["summary", "report", "consolidated", "reconciliation", "alert",
      "note", "activity", "sheet"] },
  { name := "AI / Interactions",
    tables := ["interactions", "interactions_artifacts", "interactions_sent",
      "master_ai_configurations", "master_ai_llm_logs", "master_ai_request",
      "master_ai_knowledge_base", "master_project_ai_assessment",
      "master_project_ai_interaction", "master_interactions", "master_interactions_qa"],
    keywords := ["ai", "interaction", "artifact", "llm", "assessment",
      "configuration", "knowledge"] },
  { name := "Cases",
    tables := ["case", "master_case", "master_case_project",
      "master_case_project_backup_20250219"],
    keywords := ["case", "legal", "issue", "claim"] },
  { name := "Documents",
    tables := ["documents", "master_document_type_mapping"],
    keywords := ["document", "file", "upload", "attachment", "doc"] },
  { name := "Surveys",
    tables := ["master_survey", "master_survey_answer", "master_survey_answer_batch",
      "master_survey_assignment", "master_survey_control",
      "system_survey_question", "get_survey_responses",
      "batchupload_survey_responses", "vw_survey",
      "master_survey_backup_20250219", "master_survey_bkup20241008",
      "master_survey_bkup20250129", "master_survey_answer_bkup20241008",
      "master_survey_answer_bkup20250129", "master_survey_control_backup_20250219",
      "master_survey_control_bkup20241008"],
    keywords := ["survey", "question", "answer", "response", "assignment", "batch"] },
  { name := "Financial / Dynamics",
    tables := ["projectfinancialdaily", "contactsalary", "trd365_account_fiscal",
      "trd365_accounts", "trd365_country", "trd365_project_fiscal",
      "trd365_project_fiscal_resources", "trd365_projects", "trd365_resources"],
    keywords := ["financial", "fiscal", "account", "salary", "cost", "revenue",
      "dynamics", "365"] },
  { name := "Mappings / Configurations",
    tables := ["mapping", "master_company_mail_configuration", "master_company_mapper",
      "master_mapper", "master_mapper_attributes", "workflow",
      "master_intent", "master_intent_framework", "master_intent_framework_company"],
    keywords := ["mapping", "mapper", "config", "workflow", "intent", "framework", "mail"] }]

/-- Keyword score of one category against the lowercased question
(advancedSqlAgent.js:292-297): the summed character length of every keyword
occurring as a substring. -/
def categoryScore (questionLower : String) (c : CategoryDef) : Nat :=
  (c.keywords.map (fun kw => if containsSub questionLower kw then kw.length else 0)).sum

/-- One step of the best-match fold of `selectCategory`
(advancedSqlAgent.js:299-302): strict improvement only, so ties keep the
earlier category. -/
def stepBest (questionLower : String) (acc : Option CategoryDef × Nat)
    (c : CategoryDef) : Option CategoryDef × Nat :=
  if acc.2 < categoryScore questionLower c then (some c, categoryScore questionLower c)
  else acc

/-- Embedding of `selectCategory` (advancedSqlAgent.js:283-330). `llm` is the
outcome of the classification model call (its internal failure is caught by
the source); `loadedTables` models `Array.from(this.tableSchemas.keys())`. -/
def selectCategory (question : String) (llm : Except Unit String)
    (loadedTables : List String) : String × List String :=
  let questionLower := jsToLower question
  let best := categoryMapping.foldl (stepBest questionLower) (none, 0)
  let final :=
    match best.1 with
    | some c => (c.name, c.tables)
    | none => ("General", loadedTables)
  if best.2 == 0 then
    match llm with
    | Except.ok reply =>
      match categoryMapping.find? (fun c => c.name == jsTrim reply) with
      | some c => (c.name, c.tables)
      | none => final
    | Except.error _ => final
  else final

/-- Column metadata as loaded from `INFORMATION_SCHEMA.COLUMNS`
(field names follow the result-set fields `COLUMN_NAME`, `DATA_TYPE`, ...). -/
structure ColumnInfo where
  columnName : String
  dataType : String
  isNullable : String
  columnKey : String
  columnDefault : Option String
  columnComment : String
  deriving DecidableEq, Repr

/-- Table metadata cached in `this.tableSchemas`. -/
structure TableSchema where
  name : String
  comment : String
  columns : List ColumnInfo
  deriving DecidableEq, Repr

/-- The direct keyword-to-table dictionary of `selectTables`
(advancedSqlAgent.js:340-365), in source order. -/
def keywordTableMap : List (String × List String) := [
  ("company", ["company"]),
  ("companies", ["company"]),
  ("organization", ["company"]),
  ("project", ["projects"]),
  ("projects", ["projects"]),
  ("contact", ["contacts"]),
  ("contacts", ["contacts"]),
  ("user", ["contacts", "platformusers"]),
  ("users", ["contacts", "platformusers"]),
  ("team", ["teammembers"]),
  ("teams", ["teammembers"]),
  ("timesheet", ["timesheettasks", "timesheets"]),
  ("timesheets", ["timesheettasks", "timesheets"]),
  ("survey", ["master_survey", "master_survey_answer"]),
  ("surveys", ["master_survey", "master_survey_answer"]),
  ("summary", ["master_project_ai_summary", "consolidated_summary"]),
  ("summaries", ["master_project_ai_summary", "consolidated_summary"]),
  ("financial", ["projectfinancialdaily", "contactsalary"]),
  ("cost", ["projectfinancialdaily"]),
  ("salary", ["contactsalary"]),
  ("document", ["documents"]),
  ("documents", ["documents"]),
  ("case", ["master_case", "master_case_project"]),
  ("cases", ["master_case", "master_case_project"])]

/-- JavaScript `Set.prototype.add` on a list kept in insertion order. -/
def setAdd (s : List String) (x : String) : List String :=
  if s.contains x then s else s ++ [x]

/-- Lookup in the schema catalog (a `Map` keyed by table name). -/
def lookupSchema (schemas : List (String × TableSchema)) (k : String) :
    Option TableSchema :=
  (schemas.find? (fun p => p.1 == k)).map (fun p => p.2)

/-- JavaScript `String.prototype.split` with a single-character separator. -/
def splitOnChar (sep : Char) : List Char → List (List Char)
  | [] => [[]]
  | c :: cs =>
    if c == sep then [] :: splitOnChar sep cs
    else
      match splitOnChar sep cs with
      | g :: gs => (c :: g) :: gs
      | [] => [[c]]

/-- The relevance score of one table against the lowercased question
(advancedSqlAgent.js:382-420). -/
def tableScore (questionLower : String) (tableName : String)
    (schema : TableSchema) : Nat :=
  let s1 := if containsSub questionLower (jsToLower tableName) then 20 else 0
  let parts := (splitOnChar '_' (jsToLower tableName).data).map String.mk
  let s2 := (parts.map (fun part =>
    if containsSub questionLower part && decide (part.length > 3) then 10 else 0)).sum
  let s3 := (schema.columns.map (fun col =>
    let columnName := jsToLower col.columnName
    (if containsSub questionLower columnName then 8 else 0) +
    (if containsSub columnName "name" && containsSub questionLower "name" then 5 else 0) +
    (if containsSub columnName "count" &&
        (containsSub questionLower "how many" || containsSub questionLower "count")
      then 5 else 0))).sum
  s1 + s2 + s3

/-- Stable insertion (descending by score), modelling the stable
`Array.prototype.sort((a, b) => b.score - a.score)`. -/
def insertByScoreDesc (p : String × Nat) : List (String × Nat) → List (String × Nat)
  | [] => [p]
  | q :: rest => if q.2 ≤ p.2 then p :: q :: rest else q :: insertByScoreDesc p rest

/-- Stable sort, descending by score. -/
def sortByScoreDesc : List (String × Nat) → List (String × Nat)
  | [] => []
  | x :: xs => insertByScoreDesc x (sortByScoreDesc xs)

/-- Embedding of `selectTables` (advancedSqlAgent.js:335-446): direct keyword
hits first; otherwise the top three positively scoring tables; force-include
`projects` for project/how-many questions; default to the first available
table; at most three tables. -/
def selectTables (question : String) (availableTables : List String)
    (tableSchemas : List (String × TableSchema)) : List String :=
  let questionLower := jsToLower question
  let direct := keywordTableMap.foldl (fun acc kt =>
    if containsSub questionLower kt.1 then
      kt.2.foldl (fun acc2 t =>
        if availableTables.contains t then setAdd acc2 t else acc2) acc
    else acc) []
  let selected :=
    if direct.length == 0 then
      let tableScores := availableTables.filterMap (fun tableName =>
        match lookupSchema tableSchemas tableName with
        | none => none
        | some schema =>
          let score := tableScore questionLower tableName schema
          if score > 0 then some (tableName, score) else none)
      let sorted := sortByScoreDesc tableScores
      (sorted.take 3).foldl (fun acc p => setAdd acc p.1) direct
    else direct
  let selected2 :=
    if (containsSub questionLower "project" || containsSub questionLower "how many") &&
        availableTables.contains "projects" then
      setAdd selected "projects"
    else selected
  let selected3 :=
    if selected2.length == 0 then
      match availableTables.head? with
      | some t => setAdd selected2 t
      | none => selected2
    else selected2
  selected3.take 3

/-- Embedding of `getSchemaInfo` (advancedSqlAgent.js:451-474). -/
def getSchemaInfo (tableNames : List String)
    (tableSchemas : List (String × TableSchema)) : String :=
  tableNames.foldl (fun acc tableName =>
    match lookupSchema tableSchemas tableName with
    | none => acc
    | some schema =>
      let a1 := acc ++ "\nTable: " ++ tableName ++ "\n"
      let a2 :=
        if schema.comment != "" then a1 ++ "Description: " ++ schema.comment ++ "\n"
        else a1
      let a3 := a2 ++ "Columns:\n"
      schema.columns.foldl (fun b col =>
        let b1 := b ++ "  - " ++ col.columnName ++ " (" ++ col.dataType ++ ")"
        let b2 := if col.columnKey == "PRI" then b1 ++ " [PRIMARY KEY]" else b1
        let b3 := if col.columnKey == "MUL" then b2 ++ " [FOREIGN KEY]" else b2
        let b4 := if col.columnComment != "" then b3 ++ " // " ++ col.columnComment else b3
        b4 ++ "\n") a3) ""

/-- Embedding of `generateResponse` (advancedSqlAgent.js:693-738). `respModel`
is the outcome of the prose-composition model call; its failure is caught and
turned into a fixed fallback message. -/
def generateResponse (respModel : Except Unit String) (question : String)
    (query : String) (queryResult : SqlResult) : String :=
  if queryResult.success == false then
    "I encountered an error while executing your query: " ++ queryResult.error.getD "" ++
      ". Please try rephrasing your question or contact support if the issue persists."
  else
    match queryResult.data with
    | none =>
      "I couldn\x27t find any data matching your question: \"" ++ question ++
        "\". The query executed successfully but returned no results."
    | some rows =>
      if rows.length == 0 then
        "I couldn\x27t find any data matching your question: \"" ++ question ++
          "\". The query executed successfully but returned no results."
      else
        match respModel with
        | Except.ok text =>
          let answer := jsTrim text
          if queryResult.executionTime > 1000 then
            answer ++ "\n\n*Query executed in " ++ toString queryResult.executionTime ++ "ms*"
          else answer
        | Except.error _ =>
          "I found " ++ toString rows.length ++
            " records matching your question, but I\x27m having trouble interpreting the results. Please contact support for assistance."

/-- The object returned by `processQuestion`; fields absent from the failure
object literal (advancedSqlAgent.js:785-790) are `none` there. -/
structure ProcessResult where
  success : Bool
  question : String
  category : Option String
  tables : Option (List String)
  query : Option String
  executionTime : Option Nat
  rowCount : Option Nat
  fromCache : Option Bool
  error : Option String
  response : String
  deriving DecidableEq, Repr

/-- The apology returned by the catch branch of `processQuestion` (advancedSqlAgent.js:789). -/
def processFailureResponse (question : String) : String :=
  "I\x27m sorry, I encountered an error while processing your question: \"" ++ question ++
    "\". Please try rephrasing your question or contact support if the issue persists."

/-- Embedding of `processQuestion` (advancedSqlAgent.js:743-792). The three
model calls are outcome parameters; `script` is the database outcome schedule.
A throw from `generateSqlQuery` or `validateAndOptimizeQuery` is caught by the
try/catch in the source, which returns the failure object; `executeSqlQuery` never
throws, and the success object is built with `queryResult.rowCount || 0` and
`queryResult.fromCache || false`. -/
def processQuestion (st : AgentState) (tableSchemas : List (String × TableSchema))
    (categoryLlm : Except Unit String) (genModel : Except GenError String)
    (respModel : Except Unit String) (script : Nat → Except DbError (List Row))
    (question : String) (now : Nat) : ProcessResult × AgentState :=
  let categoryResult := selectCategory question categoryLlm (tableSchemas.map (fun p => p.1))
  let selectedTables := selectTables question categoryResult.2 tableSchemas
  let schemaInfo := getSchemaInfo selectedTables tableSchemas
  match generateSqlQuery genModel question selectedTables schemaInfo with
  | Except.error e =>
    ({ success := false, question := question, category := none, tables := none,
       query := none, executionTime := none, rowCount := none, fromCache := none,
       error := some e, response := processFailureResponse question }, st)
  | Except.ok sqlQuery =>
    match validateAndOptimizeQuery sqlQuery with
    | Except.error e =>
      ({ success := false, question := question, category := none, tables := none,
         query := none, executionTime := none, rowCount := none, fromCache := none,
         error := some e, response := processFailureResponse question }, st)
    | Except.ok optimizedQuery =>
      let qr := executeSqlQuery st script optimizedQuery true now
      let response := generateResponse respModel question optimizedQuery qr.1
      ({ success := true, question := question,
         category := some categoryResult.1, tables := some selectedTables,
         query := some optimizedQuery, executionTime := some qr.1.executionTime,
         rowCount := some (qr.1.rowCount.getD 0),
         fromCache := some (qr.1.fromCache.getD false),
         error := none, response := response },
       qr.2)

/-- The HTTP status chosen by the `/query` route
(sql-agent.routes.js:125: `result.success ? 200 : 400`). -/
def queryRouteStatusCode (result : ProcessResult) : Nat :=
  if result.success then 200 else 400

/-- Claim C1: for every input string, the Query Guard
(`validateAndOptimizeQuery`) throws a rejection error if the uppercased text
of the statement contains "DROP", "DELETE", "TRUNCATE", "ALTER", "CREATE",
"INSERT", or "UPDATE" as a substring, and it returns a plain SELECT statement
that already contains LIMIT unchanged. -/
theorem claim_C1_query_guard (q : String) :
    (∀ kw, kw ∈ dangerousKeywords → containsSub (jsToUpper q) kw = true →
      ∃ msg, validateAndOptimizeQuery q = Except.error msg) ∧
    ((∀ kw ∈ dangerousKeywords, containsSub (jsToUpper q) kw = false) →
      containsSub (jsToUpper q) "SELECT" = true →
      containsSub (jsToUpper q) "LIMIT" = true →
      validateAndOptimizeQuery q = Except.ok q) := by
  constructor
  · intro kw hmem hsub
    unfold validateAndOptimizeQuery
    cases hfind : dangerousKeywords.find? (fun k => containsSub (jsToUpper q) k) with
    | some k =>
      refine ⟨"Query contains prohibited keyword: " ++ k, ?_⟩
      simp [hfind]
    | none =>
      have h2 := List.find?_eq_none.mp hfind kw hmem
      simp [hsub] at h2
  · intro hall hsel hlim
    unfold validateAndOptimizeQuery
    have hfind : dangerousKeywords.find? (fun k => containsSub (jsToUpper q) k) = none := by
      apply List.find?_eq_none.mpr
      intro k hk
      simp [hall k hk]
    simp [hfind, hlim]

/-- Witness for C1: the guard rejects a DROP statement and returns a plain
SELECT with LIMIT unchanged. -/
theorem claim_C1_query_guard_witness :
    (∃ msg, validateAndOptimizeQuery "DROP TABLE company" = Except.error msg) ∧
    validateAndOptimizeQuery "SELECT id FROM company LIMIT 5" =
      Except.ok "SELECT id FROM company LIMIT 5" :=
  ⟨(claim_C1_query_guard "DROP TABLE company").1 "DROP" (by decide) (by decide),
   (claim_C1_query_guard "SELECT id FROM company LIMIT 5").2
     (by decide) (by decide) (by decide)⟩

/-- Claim C4: a statement passing the blocklist that contains SELECT but no
LIMIT and is not an aggregate gets exactly one " LIMIT 100" appended; an
aggregate query (containing GROUP BY) is returned without an injected LIMIT. -/
theorem claim_C4_limit_injection (q : String)
    (hsafe : ∀ kw ∈ dangerousKeywords, containsSub (jsToUpper q) kw = false)
    (hsel : containsSub (jsToUpper q) "SELECT" = true)
    (hnolim : containsSub (jsToUpper q) "LIMIT" = false) :
    ((containsSub (jsToUpper q) "COUNT(" = false ∧
      containsSub (jsToUpper q) "SUM(" = false ∧
      containsSub (jsToUpper q) "AVG(" = false ∧
      containsSub (jsToUpper q) "GROUP BY" = false) →
      validateAndOptimizeQuery q = Except.ok (q ++ " LIMIT 100")) ∧
    (containsSub (jsToUpper q) "GROUP BY" = true →
      validateAndOptimizeQuery q = Except.ok q) := by
  have hfind : dangerousKeywords.find? (fun k => containsSub (jsToUpper q) k) = none := by
    apply List.find?_eq_none.mpr
    intro k hk
    simp [hsafe k hk]
  constructor
  · rintro ⟨hc, hs, ha, hg⟩
    unfold validateAndOptimizeQuery
    simp [hfind, hsel, hnolim, hc, hs, ha, hg]
  · intro hg
    unfold validateAndOptimizeQuery
    simp [hfind, hsel, hnolim, hg]

/-- Witness for C4: LIMIT 100 appended to a plain SELECT; GROUP BY query
left unchanged. -/
theorem claim_C4_limit_injection_witness :
    validateAndOptimizeQuery "SELECT a FROM t" = Except.ok "SELECT a FROM t LIMIT 100" ∧
    validateAndOptimizeQuery "SELECT a FROM t GROUP BY a" =
      Except.ok "SELECT a FROM t GROUP BY a" :=
  ⟨(claim_C4_limit_injection "SELECT a FROM t" (by decide) (by decide) (by decide)).1
     ⟨by decide, by decide, by decide, by decide⟩,
   (claim_C4_limit_injection "SELECT a FROM t GROUP BY a"
     (by decide) (by decide) (by decide)).2 (by decide)⟩

/-- A database schedule failing twice with a connection reset and then
succeeding. -/
def scriptC2 : Nat → Except DbError (List Row) := fun n =>
  if n < 2 then Except.error { code := "ECONNRESET", message := "read ECONNRESET" }
  else Except.ok [[("projectCount", "42")]]

/-- Claim C2 counterexample: with a transient connection reset on the first
two attempts and success on the third, `executeQuery` does return the
successful result, but the two backoff delays are 2000 ms and 4000 ms
(2^1 and 2^2 seconds), not the claimed 1 s and 2 s. -/
theorem claim_C2_counterexample :
    executeQuery scriptC2 = (Except.ok [[("projectCount", "42")]], [2000, 4000]) ∧
    (executeQuery scriptC2).2 ≠ [1000, 2000] :=
  ⟨rfl, by decide⟩

/-- Claim C2 as amended: when the first two attempts fail with a transient
connection error and the third succeeds, `executeQuery` returns the
successful result with no error surfaced, and exactly two backoff delays of
2 seconds and 4 seconds nominal are observed. -/
theorem claim_C2_amended (script : Nat → Except DbError (List Row))
    (e1 e2 : DbError) (rows : List Row)
    (h0 : script 0 = Except.error e1) (h1 : script 1 = Except.error e2)
    (h2 : script 2 = Except.ok rows)
    (hc1 : isConnectionError e1 = true) (hc2 : isConnectionError e2 = true) :
    executeQuery script = (Except.ok rows, [2000, 4000]) := by
  unfold executeQuery
  rw [executeQueryGo, h0]
  simp only [hc1]
  rw [executeQueryGo, h1]
  simp only [hc2]
  rw [executeQueryGo, h2]
  simp [backoffDelayMs]

/-- Witness for the amended C2 at the concrete schedule `scriptC2`. -/
theorem claim_C2_amended_witness :
    executeQuery scriptC2 = (Except.ok [[("projectCount", "42")]], [2000, 4000]) :=
  claim_C2_amended scriptC2
    { code := "ECONNRESET", message := "read ECONNRESET" }
    { code := "ECONNRESET", message := "read ECONNRESET" }
    [[("projectCount", "42")]] rfl rfl rfl (by decide) (by decide)

/-- Claim C3 (code bug evaluated at the failing input): when the SQL
generation model fails with HTTP 429 the source intends to return the
hand-coded fallback query, which for "how many projects" over `["projects"]`
would be a COUNT query; instead `generateSqlQuery` raises a ReferenceError
(the identifier `relevantTables` is unbound), and a non-429 failure
propagates as the generic generation error. -/
theorem claim_C3_rate_limit_fallback :
    generateSqlQuery (Except.error { status := 429 }) "how many projects" ["projects"] "" =
      Except.error "ReferenceError: relevantTables is not defined" ∧
    generateFallbackQuery "how many projects" ["projects"] =
      "SELECT COUNT(*) as count FROM projects" ∧
    generateSqlQuery (Except.error { status := 500 }) "how many projects" ["projects"] "" =
      Except.error "Failed to generate SQL query" :=
  ⟨rfl, rfl, rfl⟩

@[simp] theorem addToQueryHistory_queryCache (st : AgentState) (now : Nat) (q : String)
    (s : Bool) (t rc : Nat) (e : Option String) :
    (addToQueryHistory st now q s t rc e).queryCache = st.queryCache := rfl

@[simp] theorem addToQueryHistory_metrics (st : AgentState) (now : Nat) (q : String)
    (s : Bool) (t rc : Nat) (e : Option String) :
    (addToQueryHistory st now q s t rc e).metrics = st.metrics := rfl

/-- Claim C5: a fetch through `executeSqlQuery` with caching enabled within
the 5-minute TTL window returns exactly the stored rows with
`fromCache = true`, increments the cache-hit metric and issues no query to
the underlying store (the result does not depend on the database schedule);
after TTL expiry the query is re-executed and the result is flagged
`fromCache = false`. -/
theorem claim_C5_cache_ttl (st : AgentState) (script : Nat → Except DbError (List Row))
    (q : String) (now : Nat) (rows : List Row) (t0 : Nat)
    (hfind : mapFind? st.queryCache (generateCacheKey q) =
      some { result := rows, timestamp := t0 }) :
    (now - t0 < cacheTimeout →
      (executeSqlQuery st script q true now).1.data = some rows ∧
      (executeSqlQuery st script q true now).1.fromCache = some true ∧
      (executeSqlQuery st script q true now).2.metrics.cacheHits =
        st.metrics.cacheHits + 1 ∧
      ∀ script2, executeSqlQuery st script2 q true now =
        executeSqlQuery st script q true now) ∧
    (¬ now - t0 < cacheTimeout →
      ∀ rows2, (executeQuery script).1 = Except.ok rows2 →
        (executeSqlQuery st script q true now).1.fromCache = some false ∧
        (executeSqlQuery st script q true now).1.data = some rows2) := by
  constructor
  · intro hlive
    refine ⟨?_, ?_, ?_, ?_⟩ <;>
      simp [executeSqlQuery, hfind, hlive]
  · intro hdead rows2 hexec
    constructor <;>
      simp [executeSqlQuery, executeFresh, hfind, hdead, hexec]

theorem mapSet_length_le (m : List (String × CacheEntry)) (k : String) (v : CacheEntry) :
    (mapSet m k v).length ≤ m.length + 1 := by
  unfold mapSet
  split
  · simp
  · simp

theorem mapSet_of_not_has (m : List (String × CacheEntry)) (k : String) (v : CacheEntry)
    (h : mapHas m k = false) : mapSet m k v = m ++ [(k, v)] := by
  unfold mapSet
  rw [h]
  simp

theorem mapFind?_eq_none_of_not_has (m : List (String × CacheEntry)) (k : String)
    (h : mapHas m k = false) : mapFind? m k = none := by
  unfold mapFind?
  rw [List.find?_eq_none.mpr]
  · rfl
  · intro p hp hcontra
    have h2 := (List.any_eq_false.mp h) p hp
    simp at h2 hcontra
    exact h2 hcontra

theorem mapDelete_length_le (m : List (String × CacheEntry)) (k : String) :
    (mapDelete m k).length ≤ m.length := List.length_filter_le _ _

theorem evict_length_le (c : List (String × CacheEntry)) (h : 0 < c.length) :
    (match c.head? with
     | some oldest => mapDelete c oldest.1
     | none => c).length ≤ c.length - 1 := by
  cases c with
  | nil => simp at h
  | cons p rest =>
    simp only [List.head?_cons, mapDelete, List.filter_cons]
    simp only [bne_self_eq_false, Bool.false_eq_true, if_false]
    simpa using List.length_filter_le _ rest

theorem executeFresh_cache_bound (st : AgentState)
    (script : Nat → Except DbError (List Row)) (q : String) (useCache : Bool)
    (now : Nat) (ck : String) (h : st.queryCache.length ≤ 100) :
    (executeFresh st script q useCache now ck).2.queryCache.length ≤ 100 := by
  unfold executeFresh
  cases hx : (executeQuery script).1 with
  | error e => simpa using h
  | ok rows =>
    simp only [addToQueryHistory_queryCache]
    split
    · set c1 := mapSet st.queryCache ck { result := rows, timestamp := now } with hc1
      have hle : c1.length ≤ st.queryCache.length + 1 := mapSet_length_le _ _ _
      by_cases hbig : c1.length > 100
      · have hpos : 0 < c1.length := by omega
        have hev := evict_length_le c1 hpos
        simp only [hbig, if_true]
        omega
      · simp only [hbig, if_false]
        omega
    · simpa using h

/-- Claim C6: the query cache never exceeds 100 entries after any
`executeSqlQuery` call (as an inductive invariant: if it held at most 100
entries before, it does after), and inserting a fresh entry when the cache
holds exactly 100 evicts exactly the single oldest-inserted entry: the new
cache is the old one minus its first entry, with the new entry appended. -/
theorem claim_C6_cache_bound (st : AgentState)
    (script : Nat → Except DbError (List Row)) (q : String) (useCache : Bool)
    (now : Nat) :
    (st.queryCache.length ≤ 100 →
      (executeSqlQuery st script q useCache now).2.queryCache.length ≤ 100) ∧
    (∀ rows, st.queryCache.length = 100 →
      (st.queryCache.map Prod.fst).Nodup →
      mapHas st.queryCache (generateCacheKey q) = false →
      (executeQuery script).1 = Except.ok rows →
      useCache = true → 0 < rows.length → rows.length < 1000 →
      (executeSqlQuery st script q useCache now).2.queryCache =
        st.queryCache.tail ++
          [(generateCacheKey q, { result := rows, timestamp := now })]) := by
  constructor
  · intro hle
    unfold executeSqlQuery
    cases huse : useCache with
    | false =>
      simp only [if_false, Bool.false_eq_true]
      exact executeFresh_cache_bound _ _ _ _ _ _ (by simpa using hle)
    | true =>
      simp only [if_true]
      cases hfind : mapFind? st.queryCache (generateCacheKey q) with
      | none =>
        simp only [hfind]
        exact executeFresh_cache_bound _ _ _ _ _ _ (by simpa using hle)
      | some cached =>
        simp only [hfind]
        split
        · simpa using hle
        · refine executeFresh_cache_bound _ _ _ _ _ _ ?_
          simpa using le_trans (mapDelete_length_le st.queryCache (generateCacheKey q)) hle
  · intro rows hlen hnodup hfresh hexec huse hpos hlt
    subst huse
    have hfind := mapFind?_eq_none_of_not_has _ _ hfresh
    unfold executeSqlQuery
    simp only [if_true, hfind]
    unfold executeFresh
    rw [hexec]
    simp only [addToQueryHistory_queryCache]
    have hset := mapSet_of_not_has st.queryCache (generateCacheKey q)
      { result := rows, timestamp := now } hfresh
    rw [if_pos (by simp [hpos, hlt]), hset]
    have hbig : (st.queryCache ++
        [(generateCacheKey q, ({ result := rows, timestamp := now } : CacheEntry))]).length > 100 := by
      simp [hlen]
    rw [if_pos hbig]
    obtain ⟨p, rest, hsplit⟩ : ∃ p rest, st.queryCache = p :: rest := by
      cases hc : st.queryCache with
      | nil => rw [hc] at hlen; simp at hlen
      | cons a b => exact ⟨a, b, rfl⟩
    rw [hsplit]
    simp only [List.cons_append, List.head?_cons, mapDelete, List.filter_cons]
    simp only [bne_self_eq_false, Bool.false_eq_true, if_false]
    have hkeys : p.1 ∉ rest.map Prod.fst := by
      rw [hsplit] at hnodup
      simp only [List.map_cons] at hnodup
      exact (List.nodup_cons.mp hnodup).1
    rw [List.filter_append]
    have hrest : rest.filter (fun x => x.1 != p.1) = rest := by
      apply List.filter_eq_self.mpr
      intro a ha
      have : a.1 ≠ p.1 := by
        intro hcontra
        exact hkeys (hcontra ▸ List.mem_map_of_mem Prod.fst ha)
      simpa using this
    have hnew : (generateCacheKey q) ≠ p.1 := by
      intro hcontra
      have : mapHas st.queryCache p.1 = true := by
        rw [hsplit]
        simp [mapHas]
      rw [← hcontra] at this
      rw [hfresh] at this
      exact Bool.false_ne_true this
    rw [hrest]
    have hone : ([(generateCacheKey q,
        ({ result := rows, timestamp := now } : CacheEntry))].filter
          (fun x => x.1 != p.1)) =
        [(generateCacheKey q, ({ result := rows, timestamp := now } : CacheEntry))] := by
      simp [hnew]
    rw [hone]
    simp

/-- Zeroed metrics, as initialised in the constructor. -/
def emptyMetrics : Metrics :=
  { totalQueries := 0, successfulQueries := 0, failedQueries := 0,
    averageExecutionTime := 0, cacheHits := 0 }

/-- The agent state right after construction. -/
def emptyAgentState : AgentState :=
  { queryCache := [], metrics := emptyMetrics, queryHistory := [] }

/-- Two concrete rows used by the cache witnesses. -/
def cachedRows : List Row := [[("companyName", "Acme")], [("companyName", "Globex")]]

/-- A state holding one cached entry for the query `SELECT 1`. -/
def stWithEntry : AgentState :=
  { queryCache := [(generateCacheKey "SELECT 1",
      { result := cachedRows, timestamp := 0 })],
    metrics := emptyMetrics, queryHistory := [] }

/-- A database schedule that always succeeds with one fresh row. -/
def scriptOk : Nat → Except DbError (List Row) := fun _ => Except.ok [[("x", "fresh")]]

/-- Witness for C5: a hit 1 second after insertion returns the stored rows
from cache and bumps the cache-hit counter; a fetch 400 seconds after
insertion re-executes and is flagged fresh. -/
theorem claim_C5_cache_ttl_witness :
    (executeSqlQuery stWithEntry scriptOk "SELECT 1" true 1000).1.data = some cachedRows ∧
    (executeSqlQuery stWithEntry scriptOk "SELECT 1" true 1000).1.fromCache = some true ∧
    (executeSqlQuery stWithEntry scriptOk "SELECT 1" true 1000).2.metrics.cacheHits =
      stWithEntry.metrics.cacheHits + 1 ∧
    (executeSqlQuery stWithEntry scriptOk "SELECT 1" true 400000).1.fromCache = some false := by
  have h1 := (claim_C5_cache_ttl stWithEntry scriptOk "SELECT 1" 1000 cachedRows 0 rfl).1
    (by decide)
  have h2 := ((claim_C5_cache_ttl stWithEntry scriptOk "SELECT 1" 400000 cachedRows 0 rfl).2
    (by decide)) [[("x", "fresh")]] rfl
  exact ⟨h1.1, h1.2.1, h1.2.2.1, h2.1⟩

/-- A full cache of 100 entries with pairwise distinct keys. -/
def bigCache : List (String × CacheEntry) :=
  (List.range 100).map (fun i => (toString i, { result := [[("v", toString i)]], timestamp := 0 }))

/-- A state whose cache is full. -/
def stBig : AgentState :=
  { queryCache := bigCache, metrics := emptyMetrics, queryHistory := [] }

/-- Witness for C6: executing a fresh query against a full 100-entry cache
keeps the bound and replaces exactly the oldest entry. -/
theorem claim_C6_cache_bound_witness :
    (executeSqlQuery stBig scriptOk "SELECT 1" true 0).2.queryCache.length ≤ 100 ∧
    (executeSqlQuery stBig scriptOk "SELECT 1" true 0).2.queryCache =
      stBig.queryCache.tail ++
        [(generateCacheKey "SELECT 1", { result := [[("x", "fresh")]], timestamp := 0 })] := by
  have hb := claim_C6_cache_bound stBig scriptOk "SELECT 1" true 0
  exact ⟨hb.1 (by decide),
    hb.2 [[("x", "fresh")]] (by decide) (by decide) (by decide) rfl rfl
      (by decide) (by decide)⟩

/-- Claim C10: on a cache hit the result object of `executeSqlQuery` has no
`rowCount` field (it is present only on fresh executions), so a cached
response surfaces through `processQuestion` with `rowCount = 0` regardless of
how many rows the cached data contains. -/
theorem claim_C10_row_count
    (st : AgentState) (script : Nat → Except DbError (List Row))
    (q : String) (now : Nat) (rows : List Row) (t0 : Nat)
    (hfind : mapFind? st.queryCache (generateCacheKey q) =
      some { result := rows, timestamp := t0 }) :
    (now - t0 < cacheTimeout →
      (executeSqlQuery st script q true now).1.rowCount = none) ∧
    (∀ (st2 : AgentState) (rows2 : List Row),
      mapFind? st2.queryCache (generateCacheKey q) = none →
      (executeQuery script).1 = Except.ok rows2 →
      (executeSqlQuery st2 script q true now).1.rowCount = some rows2.length) ∧
    (∀ (tableSchemas : List (String × TableSchema)) (categoryLlm : Except Unit String)
        (text : String) (respModel : Except Unit String) (question : String),
      now - t0 < cacheTimeout →
      validateAndOptimizeQuery (cleanGeneratedQuery text) = Except.ok q →
      (processQuestion st tableSchemas categoryLlm (Except.ok text) respModel script
          question now).1.rowCount = some 0 ∧
      (processQuestion st tableSchemas categoryLlm (Except.ok text) respModel script
          question now).1.fromCache = some true) := by
  refine ⟨?_, ?_, ?_⟩
  · intro hlive
    simp [executeSqlQuery, hfind, hlive]
  · intro st2 rows2 hmiss hexec
    simp [executeSqlQuery, executeFresh, hmiss, hexec]
  · intro tableSchemas categoryLlm text respModel question hlive hval
    have hrc : (executeSqlQuery st script q true now).1.rowCount = none := by
      simp [executeSqlQuery, hfind, hlive]
    have hfc : (executeSqlQuery st script q true now).1.fromCache = some true := by
      simp [executeSqlQuery, hfind, hlive]
    constructor <;>
      simp [processQuestion, generateSqlQuery, hval, hrc, hfc]

/-- A state holding one cached two-row entry for the query
`SELECT 1 LIMIT 5` (which the Query Guard returns unchanged). -/
def stC10 : AgentState :=
  { queryCache := [(generateCacheKey "SELECT 1 LIMIT 5",
      { result := cachedRows, timestamp := 0 })],
    metrics := emptyMetrics, queryHistory := [] }

/-- Witness for C10: the cached result (2 rows stored) has no row count,
a fresh execution has one, and the cached pipeline answer reports 0. -/
theorem claim_C10_row_count_witness :
    (executeSqlQuery stC10 scriptOk "SELECT 1 LIMIT 5" true 1000).1.rowCount = none ∧
    (executeSqlQuery emptyAgentState scriptOk "SELECT 1 LIMIT 5" true 1000).1.rowCount =
      some 1 ∧
    (processQuestion stC10 [] (Except.error ()) (Except.ok "SELECT 1 LIMIT 5")
        (Except.error ()) scriptOk "hello" 1000).1.rowCount = some 0 := by
  have h := claim_C10_row_count stC10 scriptOk "SELECT 1 LIMIT 5" 1000 cachedRows 0 rfl
  refine ⟨h.1 (by decide), ?_, ?_⟩
  · have h2 := h.2.1 emptyAgentState [[("x", "fresh")]] rfl rfl
    simpa using h2
  · exact (h.2.2 [] (Except.error ()) "SELECT 1 LIMIT 5" (Except.error ()) "hello"
      (by decide) rfl).1

/-- First colliding query: 38 ASCII characters. -/
def queryA : String := "SELECT name FROM company WHERE id = 10"

/-- Second colliding query: agrees with `queryA` on the first 37 bytes and
differs only in the low nibble of the final character. -/
def queryB : String := "SELECT name FROM company WHERE id = 11"

/-- Rows cached for `queryA`. -/
def rowsA : List Row := [[("name", "Acme")]]

/-- Rows the store would return for `queryB`. -/
def rowsB : List Row := [[("name", "Globex")]]

/-- A schedule answering with `rowsA`. -/
def scriptRowsA : Nat → Except DbError (List Row) := fun _ => Except.ok rowsA

/-- A schedule answering with `rowsB`. -/
def scriptRowsB : Nat → Except DbError (List Row) := fun _ => Except.ok rowsB

/-- Claim C9: the cache key is the first 50 characters of the base64 encoding
of the query text, so the two distinct queries above — which agree on their
first 37 bytes — collide, and `executeSqlQuery` with caching enabled returns
the cached rows of `queryA` as the result of `queryB` even though the store
would answer differently. -/
theorem claim_C9_cache_key_collision :
    queryA ≠ queryB ∧
    queryA.data.take 37 = queryB.data.take 37 ∧
    generateCacheKey queryA = generateCacheKey queryB ∧
    (executeSqlQuery (executeSqlQuery emptyAgentState scriptRowsA queryA true 0).2
        scriptRowsB queryB true 1000).1.data = some rowsA ∧
    (executeSqlQuery (executeSqlQuery emptyAgentState scriptRowsA queryA true 0).2
        scriptRowsB queryB true 1000).1.fromCache = some true ∧
    rowsA ≠ rowsB :=
  ⟨by decide, by decide, rfl, rfl, rfl, by decide⟩

/-- Specification of the best-match fold of `selectCategory`: either no
category beats the initial score and the accumulator is unchanged, or the
result is the first category attaining the running maximum — every earlier
category scores strictly less, every later one at most as much. -/
theorem foldl_stepBest_spec (ql : String) (cats : List CategoryDef) :
    ∀ (r0 : Option CategoryDef) (s0 : Nat),
      (cats.foldl (stepBest ql) (r0, s0) = (r0, s0) ∧
        ∀ c ∈ cats, categoryScore ql c ≤ s0) ∨
      (∃ pre c post, cats = pre ++ c :: post ∧
        cats.foldl (stepBest ql) (r0, s0) = (some c, categoryScore ql c) ∧
        s0 < categoryScore ql c ∧
        (∀ x ∈ pre, categoryScore ql x < categoryScore ql c) ∧
        (∀ x ∈ post, categoryScore ql x ≤ categoryScore ql c)) := by
  induction cats with
  | nil =>
    intro r0 s0
    left
    simp
  | cons c rest ih =>
    intro r0 s0
    rw [List.foldl_cons]
    by_cases h : s0 < categoryScore ql c
    · have hstep : stepBest ql (r0, s0) c = (some c, categoryScore ql c) := by
        simp [stepBest, h]
      rw [hstep]
      rcases ih (some c) (categoryScore ql c) with
        ⟨heq, hall⟩ | ⟨pre, c2, post, hsplit, heq, hgt, hpre, hpost⟩
      · right
        exact ⟨[], c, rest, by simp, heq, h, by simp, hall⟩
      · right
        refine ⟨c :: pre, c2, post, by simp [hsplit], heq, lt_trans h hgt, ?_, hpost⟩
        intro x hx
        rcases List.mem_cons.mp hx with hx1 | hx2
        · rw [hx1]; exact hgt
        · exact hpre x hx2
    · have hstep : stepBest ql (r0, s0) c = (r0, s0) := by
        simp [stepBest, h]
      rw [hstep]
      rcases ih r0 s0 with
        ⟨heq, hall⟩ | ⟨pre, c2, post, hsplit, heq, hgt, hpre, hpost⟩
      · left
        refine ⟨heq, ?_⟩
        intro x hx
        rcases List.mem_cons.mp hx with hx1 | hx2
        · rw [hx1]; omega
        · exact hall x hx2
      · right
        refine ⟨c :: pre, c2, post, by simp [hsplit], heq, hgt, ?_, hpost⟩
        intro x hx
        rcases List.mem_cons.mp hx with hx1 | hx2
        · rw [hx1]; omega
        · exact hpre x hx2

/-- When every category scores at most the initial score, the fold keeps the
accumulator; in particular all-zero scores leave `(none, 0)`. -/
theorem foldl_stepBest_zero (ql : String)
    (h : ∀ c ∈ categoryMapping, categoryScore ql c = 0) :
    categoryMapping.foldl (stepBest ql) (none, 0) = (none, 0) := by
  rcases foldl_stepBest_spec ql categoryMapping none 0 with
    ⟨heq, _⟩ | ⟨pre, c, post, hsplit, _, hgt, _, _⟩
  · exact heq
  · have hc := h c (by rw [hsplit]; simp)
    omega

/-- Claim C7: `selectCategory` scores each category by summing the character
length of every keyword occurring (case-insensitively) in the question and
returns the category with the highest nonzero score, ties resolved in favour
of the first-seen category, without consulting the LLM; if every category
scores zero it consults the LLM once, returning a known category named by the
trimmed reply, and otherwise (unknown reply or failed call) it returns the
synthetic "General" category whose table list is every loaded table. -/
theorem claim_C7_select_category (question : String) (llm : Except Unit String)
    (loadedTables : List String) :
    ((∃ c ∈ categoryMapping, 0 < categoryScore (jsToLower question) c) →
      ∃ pre c post, categoryMapping = pre ++ c :: post ∧
        0 < categoryScore (jsToLower question) c ∧
        (∀ x ∈ pre, categoryScore (jsToLower question) x <
          categoryScore (jsToLower question) c) ∧
        (∀ x ∈ post, categoryScore (jsToLower question) x ≤
          categoryScore (jsToLower question) c) ∧
        (∀ llm2 : Except Unit String,
          selectCategory question llm2 loadedTables = (c.name, c.tables))) ∧
    ((∀ c ∈ categoryMapping, categoryScore (jsToLower question) c = 0) →
      (∀ reply c, llm = Except.ok reply →
        categoryMapping.find? (fun d => d.name == jsTrim reply) = some c →
        selectCategory question llm loadedTables = (c.name, c.tables)) ∧
      (∀ reply, llm = Except.ok reply →
        categoryMapping.find? (fun d => d.name == jsTrim reply) = none →
        selectCategory question llm loadedTables = ("General", loadedTables)) ∧
      (llm = Except.error () →
        selectCategory question llm loadedTables = ("General", loadedTables))) := by
  constructor
  · rintro ⟨c0, hc0mem, hc0pos⟩
    rcases foldl_stepBest_spec (jsToLower question) categoryMapping none 0 with
      ⟨_, hall⟩ | ⟨pre, c, post, hsplit, heq, hgt, hpre, hpost⟩
    · have := hall c0 hc0mem
      omega
    · refine ⟨pre, c, post, hsplit, hgt, hpre, hpost, ?_⟩
      intro llm2
      unfold selectCategory
      have hne : (categoryScore (jsToLower question) c == 0) = false := by
        simp
        omega
      simp only [heq, hne]
      simp
  · intro h0
    have heq := foldl_stepBest_zero (jsToLower question) h0
    refine ⟨?_, ?_, ?_⟩
    · intro reply c hllm hfindr
      subst hllm
      unfold selectCategory
      simp only [heq]
      simp [hfindr]
    · intro reply hllm hfindr
      subst hllm
      unfold selectCategory
      simp only [heq]
      simp [hfindr]
    · intro hllm
      subst hllm
      unfold selectCategory
      simp only [heq]
      simp

/-- Witness for C7: a question matching no keyword, with a failing LLM call,
falls back to the synthetic General category over all loaded tables. -/
theorem claim_C7_select_category_witness :
    selectCategory "zzz" (Except.error ()) ["alpha"] = ("General", ["alpha"]) :=
  ((claim_C7_select_category "zzz" (Except.error ()) ["alpha"]).2 (by decide)).2.2 rfl

/-- Claim C8: whenever the pipeline reaches query execution (SQL generation
and the Query Guard both succeed) and the execution itself fails,
`processQuestion` still returns `success = true` — the `/query` route then
answers HTTP 200 — with the failure visible only through the apologetic prose
response and a reported `rowCount` of 0, not through the top-level flag. -/
theorem claim_C8_success_flag (st : AgentState)
    (tableSchemas : List (String × TableSchema)) (categoryLlm : Except Unit String)
    (text : String) (respModel : Except Unit String)
    (script : Nat → Except DbError (List Row)) (question : String) (now : Nat)
    (oq : String) (e : DbError)
    (hval : validateAndOptimizeQuery (cleanGeneratedQuery text) = Except.ok oq)
    (hmiss : mapFind? st.queryCache (generateCacheKey oq) = none)
    (hexec : (executeQuery script).1 = Except.error e) :
    (processQuestion st tableSchemas categoryLlm (Except.ok text) respModel script
        question now).1.success = true ∧
    (processQuestion st tableSchemas categoryLlm (Except.ok text) respModel script
        question now).1.rowCount = some 0 ∧
    (processQuestion st tableSchemas categoryLlm (Except.ok text) respModel script
        question now).1.error = none ∧
    (processQuestion st tableSchemas categoryLlm (Except.ok text) respModel script
        question now).1.response =
      "I encountered an error while executing your query: " ++ classifyError e ++
        ". Please try rephrasing your question or contact support if the issue persists." ∧
    queryRouteStatusCode
      (processQuestion st tableSchemas categoryLlm (Except.ok text) respModel script
        question now).1 = 200 := by
  have hqr : (executeSqlQuery st script oq true now).1 =
      { success := false, data := none, error := some (classifyError e),
        errorCode := some e.code, executionTime := 0, fromCache := none,
        rowCount := none } := by
    simp [executeSqlQuery, executeFresh, hmiss, hexec]
  refine ⟨?_, ?_, ?_, ?_, ?_⟩ <;>
    simp [processQuestion, generateSqlQuery, hval, hqr, generateResponse,
      queryRouteStatusCode]

/-- A database schedule failing with a non-transient driver error. -/
def scriptFail : Nat → Except DbError (List Row) := fun _ =>
  Except.error { code := "ER_PARSE_ERROR", message := "You have an error in your SQL syntax" }

/-- Witness for C8 at concrete inputs: the generated query passes the guard,
the store fails, and `processQuestion` still reports success with HTTP 200
and row count 0. -/
theorem claim_C8_success_flag_witness :
    (processQuestion emptyAgentState [] (Except.error ())
        (Except.ok "SELECT x FROM t LIMIT 1") (Except.error ()) scriptFail
        "hello" 0).1.success = true ∧
    (processQuestion emptyAgentState [] (Except.error ())
        (Except.ok "SELECT x FROM t LIMIT 1") (Except.error ()) scriptFail
        "hello" 0).1.rowCount = some 0 ∧
    queryRouteStatusCode
      (processQuestion emptyAgentState [] (Except.error ())
        (Except.ok "SELECT x FROM t LIMIT 1") (Except.error ()) scriptFail
        "hello" 0).1 = 200 := by
  have h := claim_C8_success_flag emptyAgentState [] (Except.error ())
    "SELECT x FROM t LIMIT 1" (Except.error ()) scriptFail "hello" 0
    "SELECT x FROM t LIMIT 1"
    { code := "ER_PARSE_ERROR", message := "You have an error in your SQL syntax" }
    rfl rfl rfl
  exact ⟨h.1, h.2.1, h.2.2.2.2⟩
